import Mathlib

/-!
# Verification of the Hydrology API client (`src/hydrology_api.py`)

Shallow embedding of the UK Environment Agency Hydrology API client.
The network is modelled by oracles (the outcome of the submission POST,
the outcome of the n-th status GET, and the wall-clock reading taken at
the top of the n-th poll-loop iteration); the client code itself is
translated function by function from the Python source.
-/

namespace HydrologyAPI

/-- The parsed JSON body of a batch status response.  The Python code only
ever accesses string-valued fields through `status_data.get(...)`, so the
payload is modelled as an association list of string fields; a missing
field yields `none`, exactly like `dict.get`. -/
abbrev StatusData := List (String × String)

/-- `status_data.get("status")` from the Python source. -/
def statusOf (d : StatusData) : Option String := d.lookup "status"

/-- Outcome of one GET of the batch status URL
(`self.session.get(status_url, ...)` followed by `raise_for_status` and
`.json()`).  `failure` covers every `requests.exceptions.RequestException`
— transport errors, non-2xx responses, and malformed-JSON bodies (in
`requests`, `JSONDecodeError` is a `RequestException`), since the source
catches exactly that class around all three operations. -/
inductive PollResult where
  | failure (msg : String)
  | success (data : StatusData)
deriving DecidableEq

/-- Outcome of the submission POST to `/data/batch.json`:
either a `RequestException`, or a response whose `Location` header is
`response.headers.get("Location")` (`none` when the header is absent). -/
inductive PostResult where
  | failure (msg : String)
  | success (location : Option String)
deriving DecidableEq

/-- The distinct `raise HydrologyAPIError(...)` sites of
`get_batch_readings`, keeping the data each message interpolates:
`submissionFailed` is "Failed to submit batch request: {e}",
`noStatusUrl` is "No status URL provided in batch response",
`statusFailed` is "Failed to check batch status: {e}",
`batchFailed` is "Batch request failed: {status_data}" (it carries the
server payload), and `timedOut` is "Batch request timed out after
{max_wait_time} seconds". -/
inductive BatchError where
  | submissionFailed (msg : String)
  | noStatusUrl
  | statusFailed (msg : String)
  | batchFailed (payload : StatusData)
  | timedOut (maxWait : Nat)
deriving DecidableEq

/-- The spec's `BatchSubmissionError` covers both submission-phase raise
sites of the source: POST failure and missing `Location` header. -/
def BatchError.isSubmissionError : BatchError → Bool
  | .submissionFailed _ => true
  | .noStatusUrl => true
  | _ => false

/-- How a run of `get_batch_readings` ends: a normal return of the status
payload, or one of the `raise` sites. -/
inductive BatchOutcome where
  | ok (d : StatusData)
  | err (e : BatchError)
deriving DecidableEq

/-- Result of a run of `get_batch_readings`, instrumented with the number
of status GETs issued (`polls`) and of `time.sleep(poll_interval)` calls
(`sleeps`). -/
structure LoopResult where
  result : BatchOutcome
  polls : Nat
  sleeps : Nat
deriving DecidableEq

/-- The `while True` poll loop of `get_batch_readings` (source lines
476–495), given `fuel` remaining iterations.  `n` is the 0-based index of
the current iteration; after `n` completed (non-terminal) iterations
exactly `n` GETs and `n` sleeps have happened.  `clock n` is the value of
`time.time() - start_time` read at the top of iteration `n`; the loop
raises the timeout when that elapsed time strictly exceeds `maxWait`,
before issuing the iteration's GET.  `none` means the fuel ran out with
the loop still running (the source loop is unbounded). -/
def pollLoop (poll : Nat → PollResult) (clock : Nat → Nat) (maxWait : Nat) :
    Nat → Nat → Option LoopResult
  | _, 0 => none
  | n, fuel + 1 =>
    if maxWait < clock n then
      some ⟨BatchOutcome.err (BatchError.timedOut maxWait), n, n⟩
    else
      match poll n with
      | PollResult.failure msg =>
          some ⟨BatchOutcome.err (BatchError.statusFailed msg), n + 1, n⟩
      | PollResult.success d =>
          if statusOf d = some "Completed" then
            some ⟨BatchOutcome.ok d, n + 1, n⟩
          else if statusOf d = some "Failed" then
            some ⟨BatchOutcome.err (BatchError.batchFailed d), n + 1, n⟩
          else
            pollLoop poll clock maxWait (n + 1) fuel

/-- `get_batch_readings` from the submission POST onward (source lines
462–495).  The Python guard `if not status_url` treats both a missing
`Location` header and an empty-string header as absent, hence the
`loc.getD "" = ""` test. -/
def get_batch_readings (post : PostResult) (poll : Nat → PollResult)
    (clock : Nat → Nat) (maxWait : Nat) (fuel : Nat) : Option LoopResult :=
  match post with
  | PostResult.failure msg =>
      some ⟨BatchOutcome.err (BatchError.submissionFailed msg), 0, 0⟩
  | PostResult.success loc =>
      if loc.getD "" = "" then
        some ⟨BatchOutcome.err BatchError.noStatusUrl, 0, 0⟩
      else
        pollLoop poll clock maxWait 0 fuel

/-- A status payload that keeps the loop going: neither Completed nor
Failed. -/
def nonTerminal (d : StatusData) : Prop :=
  statusOf d ≠ some "Completed" ∧ statusOf d ≠ some "Failed"

instance (d : StatusData) : Decidable (nonTerminal d) := by
  unfold nonTerminal; infer_instance

/-- The URL built by `_make_request`: `f"{self.base_url}{endpoint}.{format}"`. -/
def requestUrl (base endpoint format : String) : String :=
  base ++ endpoint ++ "." ++ format

/-- Outcome of the GET inside `_make_request` (`session.get` followed by
`raise_for_status`): a `RequestException` or a response body. -/
inductive GetResult where
  | failure (msg : String)
  | success (body : String)
deriving DecidableEq

/-- What `_make_request` hands back to its caller, by raise/return site:
`requestError` is "API request failed: {e}", `decodeError` is "Failed to
parse JSON response: {e}" (raised when `response.json()` cannot decode
the body), `jsonValue` a decoded JSON document, `textValue` the raw
`response.text`. -/
inductive ReqResult (α : Type) where
  | requestError (msg : String)
  | decodeError (body : String)
  | jsonValue (v : α)
  | textValue (t : String)
deriving DecidableEq

/-- `_make_request` (source lines 54–94).  `get` is the network oracle
(indexed by the full URL) and `parse` models `response.json()`: `none`
exactly when the body raises `json.JSONDecodeError`. -/
def make_request {α : Type} (get : String → GetResult)
    (parse : String → Option α) (base endpoint format : String) :
    ReqResult α :=
  match get (requestUrl base endpoint format) with
  | GetResult.failure msg => ReqResult.requestError msg
  | GetResult.success body =>
    if format = "json" then
      match parse body with
      | none => ReqResult.decodeError body
      | some v => ReqResult.jsonValue v
    else if format = "csv" then
      ReqResult.textValue body
    else
      ReqResult.textValue body

/-- The character for decimal digit `n % 10`. -/
def digitChar (n : Nat) : Char := Char.ofNat (48 + n % 10)

/-- `%Y`: the year zero-padded to four digits (Python `datetime` years are
1–9999, so the four digits are exactly the decimal expansion). -/
def pad4 (n : Nat) : List Char :=
  [digitChar (n / 1000), digitChar (n / 100), digitChar (n / 10), digitChar n]

/-- `%m` / `%d`: two zero-padded digits. -/
def pad2 (n : Nat) : List Char := [digitChar (n / 10), digitChar n]

/-- `d.strftime("%Y-%m-%d")` on a `datetime` with the given fields. -/
def strftimeYMD (y m d : Nat) : String :=
  String.mk (pad4 y ++ '-' :: (pad2 m ++ '-' :: pad2 d))

/-- A date argument as the source accepts it: a pre-formatted string, or
a structured `datetime` value (only the date fields matter to
`strftime("%Y-%m-%d")`). -/
inductive DateInput where
  | str (s : String)
  | dt (year month day : Nat)
deriving DecidableEq

/-- The inner `_format_date` helper of `get_readings` (source lines
354–357): a `datetime` is rendered with `strftime("%Y-%m-%d")`, anything
else is passed through. -/
def formatDate : DateInput → String
  | DateInput.str s => s
  | DateInput.dt y m d => strftimeYMD y m d

/-- Python truthiness of a date argument: `None` and `""` are falsy, a
`datetime` is always truthy. -/
def truthyDate : DateInput → Bool
  | DateInput.str s => !(s == "")
  | DateInput.dt _ _ _ => true

/-- Whether a character list is exactly `YYYY-MM-DD`: ten characters,
digits with hyphens at positions 4 and 7. -/
def isYYYYMMDDChars : List Char → Bool
  | [c1, c2, c3, c4, h1, c5, c6, h2, c7, c8] =>
    c1.isDigit && c2.isDigit && c3.isDigit && c4.isDigit && (h1 == '-') &&
    c5.isDigit && c6.isDigit && (h2 == '-') && c7.isDigit && c8.isDigit
  | _ => false

/-- Whether a string is normalized `YYYY-MM-DD`. -/
def isYYYYMMDD (s : String) : Bool := isYYYYMMDDChars s.toList

/-- `params[key] = v` for an optional string argument guarded by Python
truthiness (`if arg:`), as a query-parameter fragment. -/
def optStr (key : String) : Option String → List (String × String)
  | none => []
  | some s => if s = "" then [] else [(key, s)]

/-- `params[key] = _format_date(arg)` guarded by `if arg:`. -/
def optDate (key : String) : Option DateInput → List (String × String)
  | none => []
  | some d => if truthyDate d then [(key, formatDate d)] else []

/-- `params[key] = arg` for an optional integer guarded by `if arg:`
(zero is falsy in Python). -/
def optNat (key : String) : Option Nat → List (String × String)
  | none => []
  | some n => if n = 0 then [] else [(key, toString n)]

/-- `params[key] = ""` guarded by a boolean argument (`earliest`,
`latest`). -/
def boolFlag (key : String) (b : Bool) : List (String × String) :=
  if b then [(key, "")] else []

/-- The arguments of `get_readings` that reach its query-parameter
mapping. -/
structure ReadingsArgs where
  measure_id : Option String := none
  station_guid : Option String := none
  station_rloi_id : Option String := none
  station_wiski_id : Option String := none
  observed_property : Option String := none
  observation_type : Option String := none
  date : Option DateInput := none
  min_date : Option DateInput := none
  max_date : Option DateInput := none
  min_inclusive_date : Option DateInput := none
  max_inclusive_date : Option DateInput := none
  earliest : Bool := false
  latest : Bool := false
  period : Option Nat := none
  view : String := "default"
  limit : Nat := 100
deriving DecidableEq

/-- The query-parameter mapping `get_readings` builds (source lines
352–388), in the source's insertion order.  All keys are pairwise
distinct, so Python's dict insertion coincides with list append. -/
def get_readings_params (a : ReadingsArgs) : List (String × String) :=
  [("_limit", toString a.limit), ("_view", a.view)]
    ++ optStr "measure" a.measure_id
    ++ optStr "station" a.station_guid
    ++ optStr "station.RLOIid" a.station_rloi_id
    ++ optStr "station.wiskiID" a.station_wiski_id
    ++ optStr "observedProperty" a.observed_property
    ++ optStr "observationType" a.observation_type
    ++ optDate "date" a.date
    ++ optDate "min-date" a.min_date
    ++ optDate "max-date" a.max_date
    ++ optDate "mineq-date" a.min_inclusive_date
    ++ optDate "maxeq-date" a.max_inclusive_date
    ++ boolFlag "earliest" a.earliest
    ++ boolFlag "latest" a.latest
    ++ optNat "period" a.period

/-- The value a single date argument contributes under its key: absent
unless the argument is supplied and truthy, else its `_format_date`
rendering. -/
def dateParam : Option DateInput → Option String
  | none => none
  | some d => if truthyDate d then some (formatDate d) else none

/-- C6: through the request executor, a JSON-format request whose body is
not decodable JSON fails with the decode error, and a CSV-format request
returns the response body text unchanged. -/
theorem make_request_json_decode_csv_raw {α : Type}
    (get : String → GetResult) (parse : String → Option α)
    (base endpoint fmt body : String)
    (hget : get (requestUrl base endpoint fmt) = GetResult.success body) :
    (fmt = "json" → parse body = none →
      make_request get parse base endpoint fmt = ReqResult.decodeError body) ∧
    (fmt = "csv" →
      make_request get parse base endpoint fmt = ReqResult.textValue body) := by
  constructor
  · intro hfmt hparse
    subst hfmt
    simp [make_request, hget, hparse]
  · intro hfmt
    subst hfmt
    simp [make_request, hget]

/-- Witness for C6: a malformed JSON body, and a CSV body echoed back. -/
theorem make_request_witness :
    make_request (fun _ => GetResult.success "not json")
        (fun _ => (none : Option Nat)) "http://b" "/data/readings" "json" =
      ReqResult.decodeError "not json" ∧
    make_request (fun _ => GetResult.success "a,b\n1,2")
        (fun _ => (none : Option Nat)) "http://b" "/data/readings" "csv" =
      ReqResult.textValue "a,b\n1,2" :=
  ⟨(make_request_json_decode_csv_raw (fun _ => GetResult.success "not json")
      (fun _ => (none : Option Nat)) "http://b" "/data/readings" "json"
      "not json" rfl).1 rfl rfl,
   (make_request_json_decode_csv_raw (fun _ => GetResult.success "a,b\n1,2")
      (fun _ => (none : Option Nat)) "http://b" "/data/readings" "csv"
      "a,b\n1,2" rfl).2 rfl⟩

lemma digitChar_isDigit (n : Nat) : (digitChar n).isDigit = true := by
  have h : n % 10 < 10 := Nat.mod_lt _ (by norm_num)
  unfold digitChar
  generalize hk : n % 10 = k
  rw [hk] at h
  interval_cases k <;> decide

/-- Every `strftime("%Y-%m-%d")` rendering is normalized `YYYY-MM-DD`. -/
lemma isYYYYMMDD_strftimeYMD (y m d : Nat) :
    isYYYYMMDD (strftimeYMD y m d) = true := by
  simp [isYYYYMMDD, strftimeYMD, pad4, pad2, isYYYYMMDDChars, String.toList,
    digitChar_isDigit]

lemma lookup_nil (k : String) :
    List.lookup k ([] : List (String × String)) = none := rfl

lemma lookup_cons_ne (k k' v : String) (rest : List (String × String))
    (h : (k == k') = false) :
    List.lookup k ((k', v) :: rest) = List.lookup k rest := by
  simp [List.lookup, h]

lemma lookup_optStr_ne (k key : String) (v : Option String)
    (rest : List (String × String)) (h : (k == key) = false) :
    List.lookup k (optStr key v ++ rest) = List.lookup k rest := by
  cases v with
  | none => simp [optStr]
  | some s =>
    by_cases hs : s = ""
    · simp [optStr, hs]
    · simp [optStr, hs, List.lookup, h]

lemma lookup_optDate_ne (k key : String) (v : Option DateInput)
    (rest : List (String × String)) (h : (k == key) = false) :
    List.lookup k (optDate key v ++ rest) = List.lookup k rest := by
  cases v with
  | none => simp [optDate]
  | some d =>
    by_cases ht : truthyDate d
    · simp [optDate, ht, List.lookup, h]
    · simp [optDate, ht]

lemma lookup_optNat_ne (k key : String) (v : Option Nat)
    (rest : List (String × String)) (h : (k == key) = false) :
    List.lookup k (optNat key v ++ rest) = List.lookup k rest := by
  cases v with
  | none => simp [optNat]
  | some n =>
    by_cases hn : n = 0
    · simp [optNat, hn]
    · simp [optNat, hn, List.lookup, h]

lemma lookup_boolFlag_ne (k key : String) (b : Bool)
    (rest : List (String × String)) (h : (k == key) = false) :
    List.lookup k (boolFlag key b ++ rest) = List.lookup k rest := by
  cases b <;> simp [boolFlag, List.lookup, h]

lemma lookup_optStr_none (k key : String) (v : Option String)
    (h : (k == key) = false) : List.lookup k (optStr key v) = none := by
  have := lookup_optStr_ne k key v [] h
  simpa using this

lemma lookup_optDate_none (k key : String) (v : Option DateInput)
    (h : (k == key) = false) : List.lookup k (optDate key v) = none := by
  have := lookup_optDate_ne k key v [] h
  simpa using this

lemma lookup_optNat_none (k key : String) (v : Option Nat)
    (h : (k == key) = false) : List.lookup k (optNat key v) = none := by
  have := lookup_optNat_ne k key v [] h
  simpa using this

lemma lookup_boolFlag_none (k key : String) (b : Bool)
    (h : (k == key) = false) : List.lookup k (boolFlag key b) = none := by
  have := lookup_boolFlag_ne k key b [] h
  simpa using this

lemma lookup_optDate_self (key : String) (v : Option DateInput)
    (rest : List (String × String)) (hrest : List.lookup key rest = none) :
    List.lookup key (optDate key v ++ rest) = dateParam v := by
  cases v with
  | none =>
    simp only [optDate, dateParam, List.nil_append]
    exact hrest
  | some d =>
    by_cases ht : truthyDate d
    · simp [optDate, dateParam, ht, List.lookup]
    · simp only [optDate, dateParam, if_neg ht, List.nil_append]
      exact hrest

/-- C7: in `get_readings`, each of the five date arguments controls
exactly its own query parameter — `date`, `min-date`, `max-date`,
`mineq-date`, `maxeq-date` — independently of the other four, and every
structured date value is transmitted rendered by `strftime("%Y-%m-%d")`,
which always yields a normalized `YYYY-MM-DD` string. -/
theorem readings_date_params (a : ReadingsArgs) :
    List.lookup "date" (get_readings_params a) = dateParam a.date ∧
    List.lookup "min-date" (get_readings_params a) = dateParam a.min_date ∧
    List.lookup "max-date" (get_readings_params a) = dateParam a.max_date ∧
    List.lookup "mineq-date" (get_readings_params a) =
      dateParam a.min_inclusive_date ∧
    List.lookup "maxeq-date" (get_readings_params a) =
      dateParam a.max_inclusive_date ∧
    ∀ y m d : Nat, isYYYYMMDD (formatDate (DateInput.dt y m d)) = true := by
  refine ⟨?_, ?_, ?_, ?_, ?_, fun y m d => isYYYYMMDD_strftimeYMD y m d⟩ <;>
    simp [get_readings_params, List.append_assoc, lookup_cons_ne,
      lookup_optStr_ne, lookup_optDate_ne, lookup_optNat_ne,
      lookup_boolFlag_ne, lookup_optDate_self, lookup_nil,
      lookup_optStr_none, lookup_optDate_none, lookup_optNat_none,
      lookup_boolFlag_none]

/-- Witness for C7: a structured `date`, a string `min-date`, the other
three date filters absent. -/
theorem readings_date_params_witness :
    List.lookup "date" (get_readings_params
      { date := some (DateInput.dt 2020 1 2),
        min_date := some (DateInput.str "2019-12-31") }) = some "2020-01-02" ∧
    List.lookup "min-date" (get_readings_params
      { date := some (DateInput.dt 2020 1 2),
        min_date := some (DateInput.str "2019-12-31") }) =
      some "2019-12-31" ∧
    List.lookup "maxeq-date" (get_readings_params
      { date := some (DateInput.dt 2020 1 2),
        min_date := some (DateInput.str "2019-12-31") }) = none ∧
    isYYYYMMDD "2020-01-02" = true := by
  obtain ⟨h1, h2, -, -, h5, h6⟩ := readings_date_params
    { date := some (DateInput.dt 2020 1 2),
      min_date := some (DateInput.str "2019-12-31") }
  refine ⟨?_, ?_, ?_, ?_⟩
  · rw [h1]; decide
  · rw [h2]; decide
  · rw [h5]; decide
  · have := h6 2020 1 2
    simpa using this

/-- `OBSERVED_PROPERTIES` from the source (lines 39–43). -/
def OBSERVED_PROPERTIES : List String :=
  ["waterFlow", "waterLevel", "rainfall", "groundwaterLevel",
   "dissolved-oxygen", "fdom", "bga", "turbidity", "chlorophyll",
   "conductivity", "temperature", "ammonium", "nitrate", "ph"]

/-- `STATION_STATUSES` from the source (line 46). -/
def STATION_STATUSES : List String := ["Active", "Suspended", "Closed"]

/-- Python dict assignment `params[k] = v` on an association list:
replace the value in place when the key is present, append otherwise. -/
def dictInsert (m : List (String × String)) (k v : String) :
    List (String × String) :=
  if m.any (fun p => p.1 == k) then
    m.map (fun p => if p.1 == k then (p.1, v) else p)
  else m ++ [(k, v)]

/-- Python truthiness of an optional string argument (`if arg:`): `None`
and `""` are falsy. -/
def truthyS (v : Option String) : Bool := !(v.getD "" == "")

/-- Python truthiness of an optional numeric argument (`if arg:`): `None`
and zero are falsy.  Float arguments carry no arithmetic in this code, so
they are embedded as integers. -/
def truthyI (v : Option Int) : Bool := !(v.getD 0 == 0)

/-- The arguments of `get_stations` (floats embedded as integers; the
code never computes with them). -/
structure GetStationsArgs where
  station_id : Option String := none
  rloi_id : Option String := none
  wiski_id : Option String := none
  station_guid : Option String := none
  observed_property : Option String := none
  status : Option String := none
  search : Option String := none
  latitude : Option Int := none
  longitude : Option Int := none
  distance : Option Int := none
  easting : Option Int := none
  northing : Option Int := none
  view : String := "default"
  limit : Nat := 100
  offset : Nat := 0
deriving DecidableEq

/-- What a call to `get_stations` hands to `_make_request`: the endpoint,
the `params` dict as built (`builtParams`), the params actually passed —
`params if endpoint == "/id/stations" else None` (`sentParams`) — and the
`logger.warning` messages emitted, in order. -/
structure StationsRequest where
  endpoint : String
  builtParams : List (String × String)
  sentParams : Option (List (String × String))
  warnings : List String
deriving DecidableEq

/-- `get_stations` (source lines 96–173) up to the delegation to
`_make_request`. -/
def get_stations (a : GetStationsArgs) : StationsRequest :=
  let params0 : List (String × String) :=
    [("_limit", toString a.limit), ("_offset", toString a.offset),
     ("_view", a.view)]
  if truthyS a.station_id then
    { endpoint := "/id/stations/" ++ a.station_id.getD ""
      builtParams := params0
      sentParams := none
      warnings := [] }
  else
    let p1 := if truthyS a.rloi_id then
        dictInsert params0 "RLOIid" (a.rloi_id.getD "") else params0
    let p2 := if truthyS a.wiski_id then
        dictInsert p1 "wiskiID" (a.wiski_id.getD "") else p1
    let p3 := if truthyS a.station_guid then
        dictInsert p2 "stationGuid" (a.station_guid.getD "") else p2
    let w1 := if truthyS a.observed_property &&
        !(OBSERVED_PROPERTIES.contains (a.observed_property.getD "")) then
        ["Unknown observed property: " ++ a.observed_property.getD ""] else []
    let p4 := if truthyS a.observed_property then
        dictInsert p3 "observedProperty" (a.observed_property.getD "") else p3
    let w2 := if truthyS a.status &&
        !(STATION_STATUSES.contains (a.status.getD "")) then
        ["Unknown status: " ++ a.status.getD ""] else []
    let p5 := if truthyS a.status then
        dictInsert p4 "status.label" (a.status.getD "") else p4
    let p6 := if truthyS a.search then
        dictInsert p5 "search" (a.search.getD "") else p5
    let p7 := if a.latitude.isSome && a.longitude.isSome then
        (if truthyI a.distance then
          dictInsert (dictInsert (dictInsert p6 "lat"
              (toString (a.latitude.getD 0)))
            "long" (toString (a.longitude.getD 0)))
            "dist" (toString (a.distance.getD 0))
         else
          dictInsert (dictInsert p6 "lat" (toString (a.latitude.getD 0)))
            "long" (toString (a.longitude.getD 0)))
      else p6
    let p8 := if a.easting.isSome && a.northing.isSome then
        (if truthyI a.distance then
          dictInsert (dictInsert (dictInsert p7 "easting"
              (toString (a.easting.getD 0)))
            "northing" (toString (a.northing.getD 0)))
            "dist" (toString (a.distance.getD 0))
         else
          dictInsert (dictInsert p7 "easting" (toString (a.easting.getD 0)))
            "northing" (toString (a.northing.getD 0)))
      else p7
    { endpoint := "/id/stations"
      builtParams := p8
      sentParams := some p8
      warnings := w1 ++ w2 }

/-- The arguments of `get_open_stations`. -/
structure OpenStationsArgs where
  from_date : DateInput
  to_date : DateInput
  observed_property : Option String := none
  status : Option String := none
  search : Option String := none
  latitude : Option Int := none
  longitude : Option Int := none
  distance : Option Int := none
  limit : Nat := 100
  offset : Nat := 0
deriving DecidableEq

/-- `get_open_stations` (source lines 175–230) up to the delegation to
`_make_request`: the params dict it builds, paired with the
`logger.warning` messages it emits — the source contains no validation
or warning call in this method, so that component is always empty. -/
def get_open_stations (a : OpenStationsArgs) :
    List (String × String) × List String :=
  let params0 : List (String × String) :=
    [("from", formatDate a.from_date), ("to", formatDate a.to_date),
     ("_limit", toString a.limit), ("_offset", toString a.offset)]
  let p1 := if truthyS a.observed_property then
      dictInsert params0 "observedProperty" (a.observed_property.getD "")
    else params0
  let p2 := if truthyS a.status then
      dictInsert p1 "status.label" (a.status.getD "") else p1
  let p3 := if truthyS a.search then
      dictInsert p2 "search" (a.search.getD "") else p2
  let p4 := if a.latitude.isSome && a.longitude.isSome then
      (if truthyI a.distance then
        dictInsert (dictInsert (dictInsert p3 "lat"
            (toString (a.latitude.getD 0)))
          "long" (toString (a.longitude.getD 0)))
          "dist" (toString (a.distance.getD 0))
       else
        dictInsert (dictInsert p3 "lat" (toString (a.latitude.getD 0)))
          "long" (toString (a.longitude.getD 0)))
    else p3
  (p4, [])

/-- One non-terminal iteration just advances the loop: when the deadline
has not passed and the poll returns a non-terminal status, iteration `i`
performs its GET, sleeps, and hands over to iteration `i + 1`. -/
lemma pollLoop_step (poll : Nat → PollResult) (clock : Nat → Nat)
    (maxWait i fuel : Nat) (d : StatusData)
    (hclk : clock i ≤ maxWait) (hpd : poll i = PollResult.success d)
    (hnt : nonTerminal d) :
    pollLoop poll clock maxWait i (fuel + 1) =
      pollLoop poll clock maxWait (i + 1) fuel := by
  obtain ⟨hnc, hnf⟩ := hnt
  simp only [pollLoop]
  rw [if_neg (by omega), hpd]
  simp only [if_neg hnc, if_neg hnf]

/-- Running the loop past a block of `n` non-terminal iterations starting
at `i` is running it from iteration `i + n`. -/
lemma pollLoop_skip (poll : Nat → PollResult) (clock : Nat → Nat)
    (maxWait : Nat) :
    ∀ n i fuel : Nat,
      (∀ k, i ≤ k → k < i + n → clock k ≤ maxWait ∧
        ∃ d, poll k = PollResult.success d ∧ nonTerminal d) →
      pollLoop poll clock maxWait i (n + fuel) =
        pollLoop poll clock maxWait (i + n) fuel := by
  intro n
  induction n with
  | zero => intro i fuel _; simp
  | succ m ih =>
    intro i fuel h
    obtain ⟨hclk, d, hpd, hnt⟩ := h i (le_refl i) (by omega)
    have harith : m + 1 + fuel = (m + fuel) + 1 := by omega
    rw [harith, pollLoop_step poll clock maxWait i (m + fuel) d hclk hpd hnt,
      ih (i + 1) fuel (fun k hk1 hk2 => h k (by omega) (by omega))]
    congr 1
    omega

/-- If every poll is non-terminal and the clock exceeds the ceiling at
some iteration the loop can reach, the run ends in the timeout error. -/
lemma pollLoop_timeout_of_exceeds (poll : Nat → PollResult)
    (clock : Nat → Nat) (maxWait N : Nat) (hN : maxWait < clock N) :
    ∀ fuel n : Nat, n ≤ N → N - n < fuel →
      (∀ k, ∃ d, poll k = PollResult.success d ∧ nonTerminal d) →
      (pollLoop poll clock maxWait n fuel).map LoopResult.result =
        some (BatchOutcome.err (BatchError.timedOut maxWait)) := by
  intro fuel
  induction fuel with
  | zero => intro n h1 h2 _; omega
  | succ f ih =>
    intro n hn hf hall
    by_cases hc : maxWait < clock n
    · simp [pollLoop, hc]
    · obtain ⟨d, hpd, hnt⟩ := hall n
      have hne : n ≠ N := fun h => hc (h ▸ hN)
      rw [pollLoop_step poll clock maxWait n f d (by omega) hpd hnt]
      exact ih (n + 1) (by omega) (by omega) hall

/-- If a run of the loop ends in the timeout error, the timeout fired at
some iteration index `r.polls ≥ n` whose clock reading exceeded the
ceiling. -/
lemma pollLoop_timeout_polls (poll : Nat → PollResult) (clock : Nat → Nat)
    (maxWait : Nat) :
    ∀ fuel n r, pollLoop poll clock maxWait n fuel = some r →
      r.result = BatchOutcome.err (BatchError.timedOut maxWait) →
      n ≤ r.polls ∧ maxWait < clock r.polls := by
  intro fuel
  induction fuel with
  | zero => intro n r hr _; simp [pollLoop] at hr
  | succ f ih =>
    intro n r hr ht
    by_cases hc : maxWait < clock n
    · simp only [pollLoop, if_pos hc, Option.some_inj] at hr
      subst hr
      exact ⟨le_refl n, hc⟩
    · simp only [pollLoop, if_neg hc] at hr
      split at hr
      · simp only [Option.some_inj] at hr
        subst hr
        simp at ht
      · split at hr
        · simp only [Option.some_inj] at hr
          subst hr
          simp at ht
        · split at hr
          · simp only [Option.some_inj] at hr
            subst hr
            simp at ht
          · obtain ⟨h1, h2⟩ := ih (n + 1) r hr ht
            exact ⟨by omega, h2⟩

/-- C1: a batch request whose status endpoint reports `"Completed"` on the
very first poll returns the full status payload immediately — one GET,
zero inter-poll sleeps. -/
theorem completed_first_poll_returns_immediately
    (poll : Nat → PollResult) (clock : Nat → Nat) (maxWait fuel : Nat)
    (url : String) (d : StatusData)
    (hurl : url ≠ "")
    (hclk : clock 0 ≤ maxWait)
    (h0 : poll 0 = PollResult.success d)
    (hst : statusOf d = some "Completed")
    (hfuel : 1 ≤ fuel) :
    get_batch_readings (PostResult.success (some url)) poll clock maxWait fuel =
      some ⟨BatchOutcome.ok d, 1, 0⟩ := by
  obtain ⟨f, rfl⟩ : ∃ f, fuel = f + 1 := ⟨fuel - 1, by omega⟩
  simp only [get_batch_readings, Option.getD, if_neg hurl, pollLoop]
  rw [if_neg (by omega), h0]
  simp only [if_pos hst]

/-- Witness for C1 at a concrete environment. -/
theorem completed_first_poll_witness :
    get_batch_readings (PostResult.success (some "http://s"))
      (fun _ => PollResult.success [("status", "Completed")])
      (fun _ => 0) 3600 1 =
      some ⟨BatchOutcome.ok [("status", "Completed")], 1, 0⟩ :=
  completed_first_poll_returns_immediately _ _ _ _ _ _
    (by decide) (by decide) rfl (by decide) (by decide)

/-- C2: if no poll ever reports a terminal status and the elapsed clock
exceeds `maxWait` at some reachable iteration, the run ends with the
timeout error rather than polling forever. -/
theorem nonterminal_polls_time_out
    (poll : Nat → PollResult) (clock : Nat → Nat) (maxWait N fuel : Nat)
    (url : String)
    (hurl : url ≠ "")
    (hall : ∀ k, ∃ d, poll k = PollResult.success d ∧ nonTerminal d)
    (hN : maxWait < clock N)
    (hfuel : N < fuel) :
    (get_batch_readings (PostResult.success (some url)) poll clock maxWait
        fuel).map LoopResult.result =
      some (BatchOutcome.err (BatchError.timedOut maxWait)) := by
  simp only [get_batch_readings, Option.getD, if_neg hurl]
  exact pollLoop_timeout_of_exceeds poll clock maxWait N hN fuel 0
    (by omega) (by omega) hall

/-- Witness for C2: polls stuck at `"Queued"`, the clock advancing 5 per
iteration, ceiling 12 — exceeded at iteration 3. -/
theorem nonterminal_polls_witness :
    (get_batch_readings (PostResult.success (some "http://s"))
        (fun _ => PollResult.success [("status", "Queued")])
        (fun n => n * 5) 12 4).map LoopResult.result =
      some (BatchOutcome.err (BatchError.timedOut 12)) :=
  nonterminal_polls_time_out _ _ _ 3 _ _ (by decide)
    (fun _ => ⟨[("status", "Queued")], rfl, by decide⟩) (by decide) (by decide)

/-- C3: a POST failure, and likewise a response whose `Location` header is
absent (or empty, which the Python guard treats identically), fails with
the submission-phase error and issues zero polling GETs; both raise sites
fall under the spec's `BatchSubmissionError`. -/
theorem submission_failure_makes_no_polls
    (poll : Nat → PollResult) (clock : Nat → Nat) (maxWait fuel : Nat)
    (msg : String) (loc : Option String)
    (hloc : loc.getD "" = "") :
    get_batch_readings (PostResult.failure msg) poll clock maxWait fuel =
        some ⟨BatchOutcome.err (BatchError.submissionFailed msg), 0, 0⟩ ∧
    get_batch_readings (PostResult.success loc) poll clock maxWait fuel =
        some ⟨BatchOutcome.err BatchError.noStatusUrl, 0, 0⟩ ∧
    (BatchError.submissionFailed msg).isSubmissionError = true ∧
    BatchError.noStatusUrl.isSubmissionError = true := by
  refine ⟨rfl, ?_, rfl, rfl⟩
  simp [get_batch_readings, hloc]

/-- Witness for C3 with the `Location` header absent. -/
theorem submission_failure_witness :
    get_batch_readings (PostResult.failure "conn refused")
        (fun _ => PollResult.success []) (fun _ => 0) 3600 5 =
        some ⟨BatchOutcome.err (BatchError.submissionFailed "conn refused"),
          0, 0⟩ ∧
    get_batch_readings (PostResult.success none)
        (fun _ => PollResult.success []) (fun _ => 0) 3600 5 =
        some ⟨BatchOutcome.err BatchError.noStatusUrl, 0, 0⟩ ∧
    (BatchError.submissionFailed "conn refused").isSubmissionError = true ∧
    BatchError.noStatusUrl.isSubmissionError = true :=
  submission_failure_makes_no_polls _ _ _ _ _ _ (by decide)

/-- C4: when the first terminal status the loop observes is `"Failed"`
(at iteration `n`, after `n` non-terminal polls within the deadline), the
run ends with `batchFailed` carrying that very server payload. -/
theorem failed_status_raises_batchFailed
    (poll : Nat → PollResult) (clock : Nat → Nat) (maxWait n fuel : Nat)
    (url : String) (d : StatusData)
    (hurl : url ≠ "")
    (hpre : ∀ k, k < n → clock k ≤ maxWait ∧
      ∃ e, poll k = PollResult.success e ∧ nonTerminal e)
    (hclk : clock n ≤ maxWait)
    (hn : poll n = PollResult.success d)
    (hst : statusOf d = some "Failed")
    (hfuel : n < fuel) :
    get_batch_readings (PostResult.success (some url)) poll clock maxWait
        fuel =
      some ⟨BatchOutcome.err (BatchError.batchFailed d), n + 1, n⟩ := by
  simp only [get_batch_readings, Option.getD, if_neg hurl]
  have hsplit : fuel = n + (fuel - n) := by omega
  rw [hsplit, pollLoop_skip poll clock maxWait n 0 (fuel - n)
    (fun k hk1 hk2 => hpre k (by omega))]
  obtain ⟨m, hm⟩ : ∃ m, fuel - n = m + 1 := ⟨fuel - n - 1, by omega⟩
  rw [hm]
  simp only [Nat.zero_add, pollLoop]
  rw [if_neg (by omega), hn]
  simp [hst]

/-- Witness for C4: one `"Queued"` poll, then `"Failed"`. -/
theorem failed_status_witness :
    get_batch_readings (PostResult.success (some "http://s"))
        (fun k => if k = 0 then PollResult.success [("status", "Queued")]
          else PollResult.success [("status", "Failed")])
        (fun _ => 0) 3600 3 =
      some ⟨BatchOutcome.err
        (BatchError.batchFailed [("status", "Failed")]), 2, 1⟩ :=
  failed_status_raises_batchFailed _ _ _ 1 _ _ _ (by decide)
    (fun k hk => by
      interval_cases k
      exact ⟨by decide, [("status", "Queued")], rfl, by decide⟩)
    (by decide) rfl (by decide) (by decide)

/-- C5: a failing status GET at iteration `n` — transport, HTTP, or JSON
parse failure, all of which the source catches as one exception class —
ends the run immediately with `statusFailed`: that GET is issued exactly
once (`polls = n + 1`) and never retried. -/
theorem poll_failure_raises_statusFailed
    (poll : Nat → PollResult) (clock : Nat → Nat) (maxWait n fuel : Nat)
    (url msg : String)
    (hurl : url ≠ "")
    (hpre : ∀ k, k < n → clock k ≤ maxWait ∧
      ∃ e, poll k = PollResult.success e ∧ nonTerminal e)
    (hclk : clock n ≤ maxWait)
    (hn : poll n = PollResult.failure msg)
    (hfuel : n < fuel) :
    get_batch_readings (PostResult.success (some url)) poll clock maxWait
        fuel =
      some ⟨BatchOutcome.err (BatchError.statusFailed msg), n + 1, n⟩ := by
  simp only [get_batch_readings, Option.getD, if_neg hurl]
  have hsplit : fuel = n + (fuel - n) := by omega
  rw [hsplit, pollLoop_skip poll clock maxWait n 0 (fuel - n)
    (fun k hk1 hk2 => hpre k (by omega))]
  obtain ⟨m, hm⟩ : ∃ m, fuel - n = m + 1 := ⟨fuel - n - 1, by omega⟩
  rw [hm]
  simp only [Nat.zero_add, pollLoop]
  rw [if_neg (by omega), hn]

/-- Witness for C5: the second status GET fails at transport level. -/
theorem poll_failure_witness :
    get_batch_readings (PostResult.success (some "http://s"))
        (fun k => if k = 0 then PollResult.success [("status", "Queued")]
          else PollResult.failure "503")
        (fun _ => 0) 3600 3 =
      some ⟨BatchOutcome.err (BatchError.statusFailed "503"), 2, 1⟩ :=
  poll_failure_raises_statusFailed _ _ _ 1 _ _ _ (by decide)
    (fun k hk => by
      interval_cases k
      exact ⟨by decide, [("status", "Queued")], rfl, by decide⟩)
    (by decide) rfl (by decide)

/-- C10: with the elapsed clock zero at submission, a run that ends in
the timeout error has issued at least one status GET — the first
iteration's deadline check (`elapsed > max_wait_time`, strict) cannot
fire before the first GET. -/
theorem timeout_only_after_first_poll
    (post : PostResult) (poll : Nat → PollResult) (clock : Nat → Nat)
    (maxWait fuel : Nat) (r : LoopResult)
    (hc0 : clock 0 = 0)
    (hr : get_batch_readings post poll clock maxWait fuel = some r)
    (ht : r.result = BatchOutcome.err (BatchError.timedOut maxWait)) :
    1 ≤ r.polls := by
  cases post with
  | failure msg =>
    simp only [get_batch_readings, Option.some_inj] at hr
    subst hr
    simp at ht
  | success loc =>
    simp only [get_batch_readings] at hr
    by_cases hl : loc.getD "" = ""
    · rw [if_pos hl] at hr
      simp only [Option.some_inj] at hr
      subst hr
      simp at ht
    · rw [if_neg hl] at hr
      obtain ⟨-, hclk⟩ :=
        pollLoop_timeout_polls poll clock maxWait fuel 0 r hr ht
      by_contra hp
      have hz : r.polls = 0 := by omega
      rw [hz, hc0] at hclk
      omega

/-- Witness for C10: ceiling 0, clock jumping to 7 at iteration 1 — the
timeout fires only after the first GET (here `polls = 1`). -/
theorem timeout_only_after_first_poll_witness : 1 ≤ 1 :=
  timeout_only_after_first_poll (PostResult.success (some "http://s"))
    (fun _ => PollResult.success [("status", "Queued")])
    (fun n => n * 7) 0 2
    ⟨BatchOutcome.err (BatchError.timedOut 0), 1, 1⟩
    (by decide) (by decide) (by decide)

lemma beq_symm_false (a b : String) (h : (a == b) = false) :
    (b == a) = false := by
  cases hba : b == a
  · rfl
  · have hab : b = a := by simpa using hba
    subst hab
    simp at h

lemma lookup_cons_eq (k k' v : String) (rest : List (String × String))
    (h : (k == k') = true) :
    List.lookup k ((k', v) :: rest) = some v := by
  simp [List.lookup, h]

lemma lookup_map_update_ne (k v k' : String) (h : (k' == k) = false) :
    ∀ m : List (String × String),
      List.lookup k' (m.map (fun p => if p.1 == k then (p.1, v) else p)) =
        List.lookup k' m := by
  intro m
  induction m with
  | nil => rfl
  | cons p t ih =>
    obtain ⟨pk, pv⟩ := p
    simp only [List.map_cons]
    by_cases hpk : (pk == k) = true
    · rw [if_pos hpk]
      have hk : pk = k := by simpa using hpk
      subst hk
      rw [lookup_cons_ne _ _ _ _ h, lookup_cons_ne _ _ _ _ h, ih]
    · rw [if_neg hpk]
      by_cases hk' : (k' == pk) = true
      · rw [lookup_cons_eq _ _ _ _ hk', lookup_cons_eq _ _ _ _ hk']
      · have hf' : (k' == pk) = false := by simpa using hk'
        rw [lookup_cons_ne _ _ _ _ hf', lookup_cons_ne _ _ _ _ hf', ih]

lemma lookup_append_single_ne (k' k v : String) (h : (k' == k) = false) :
    ∀ m : List (String × String),
      List.lookup k' (m ++ [(k, v)]) = List.lookup k' m := by
  intro m
  induction m with
  | nil =>
    simp only [List.nil_append]
    rw [lookup_cons_ne _ _ _ _ h]
  | cons p t ih =>
    obtain ⟨pk, pv⟩ := p
    simp only [List.cons_append]
    by_cases hk' : (k' == pk) = true
    · rw [lookup_cons_eq _ _ _ _ hk', lookup_cons_eq _ _ _ _ hk']
    · have hf' : (k' == pk) = false := by simpa using hk'
      rw [lookup_cons_ne _ _ _ _ hf', lookup_cons_ne _ _ _ _ hf', ih]

lemma lookup_dictInsert_ne (m : List (String × String)) (k v k' : String)
    (h : (k' == k) = false) :
    List.lookup k' (dictInsert m k v) = List.lookup k' m := by
  unfold dictInsert
  split
  · exact lookup_map_update_ne k v k' h m
  · exact lookup_append_single_ne k' k v h m

lemma lookup_map_update_self (k v : String) :
    ∀ m : List (String × String), m.any (fun p => p.1 == k) = true →
      List.lookup k (m.map (fun p => if p.1 == k then (p.1, v) else p)) =
        some v := by
  intro m
  induction m with
  | nil => intro h; simp at h
  | cons p t ih =>
    intro h
    obtain ⟨pk, pv⟩ := p
    simp only [List.map_cons]
    by_cases hpk : (pk == k) = true
    · rw [if_pos hpk]
      have hk : pk = k := by simpa using hpk
      subst hk
      exact lookup_cons_eq _ _ _ _ (by simp)
    · rw [if_neg hpk]
      have hf : (pk == k) = false := by simpa using hpk
      have ht : t.any (fun p => p.1 == k) = true := by
        simpa [hf] using h
      have hne : (k == pk) = false := beq_symm_false pk k hf
      rw [lookup_cons_ne _ _ _ _ hne, ih ht]

lemma lookup_append_not_present (k : String) :
    ∀ m rest : List (String × String),
      m.any (fun p => p.1 == k) = false →
      List.lookup k (m ++ rest) = List.lookup k rest := by
  intro m
  induction m with
  | nil => intro rest _; rfl
  | cons p t ih =>
    intro rest h
    obtain ⟨pk, pv⟩ := p
    simp only [List.any_cons, Bool.or_eq_false_iff] at h
    have hne : (k == pk) = false := beq_symm_false pk k h.1
    simp only [List.cons_append]
    rw [lookup_cons_ne _ _ _ _ hne, ih rest h.2]

lemma lookup_dictInsert_self (m : List (String × String)) (k v : String) :
    List.lookup k (dictInsert m k v) = some v := by
  unfold dictInsert
  split
  · exact lookup_map_update_self k v m (by assumption)
  · rename_i h
    rw [lookup_append_not_present k m [(k, v)]
      (by simp only [Bool.not_eq_true] at h; exact h)]
    exact lookup_cons_eq _ _ _ _ (by simp)

/-- Skipping a conditional `params[k] = v` whose key differs from the one
being looked up. -/
lemma lookup_insertIf_ne (c : Bool) (m : List (String × String))
    (k v k' : String) (h : (k' == k) = false) :
    List.lookup k' (if c then dictInsert m k v else m) =
      List.lookup k' m := by
  cases c
  · rfl
  · exact lookup_dictInsert_ne m k v k' h

/-- Skipping a whole geographic-search block (`lat`/`long` or
`easting`/`northing`, optionally followed by `dist`). -/
lemma lookup_geo_ne (c1 c2 : Bool) (m : List (String × String))
    (k1 k2 v1 v2 vd k' : String)
    (h1 : (k' == k1) = false) (h2 : (k' == k2) = false)
    (h3 : (k' == "dist") = false) :
    List.lookup k'
      (if c1 then
        (if c2 then
          dictInsert (dictInsert (dictInsert m k1 v1) k2 v2) "dist" vd
         else dictInsert (dictInsert m k1 v1) k2 v2)
       else m) = List.lookup k' m := by
  cases c1
  · rfl
  · cases c2
    · show List.lookup k' (dictInsert (dictInsert m k1 v1) k2 v2) =
        List.lookup k' m
      rw [lookup_dictInsert_ne _ _ _ _ h2, lookup_dictInsert_ne _ _ _ _ h1]
    · show List.lookup k'
          (dictInsert (dictInsert (dictInsert m k1 v1) k2 v2) "dist" vd) =
        List.lookup k' m
      rw [lookup_dictInsert_ne _ _ _ _ h3, lookup_dictInsert_ne _ _ _ _ h2,
        lookup_dictInsert_ne _ _ _ _ h1]

/-- C9: a `get_stations` call with a truthy `station_id` goes to the
single-station endpoint `/id/stations/{id}`; the default parameter
mapping (`_limit`/`_offset`/`_view`) is built but replaced by `None` in
the delegation, so nothing is transmitted, no filter is added to the
mapping, and no validation warning is emitted. -/
theorem single_station_lookup_sends_no_params (a : GetStationsArgs)
    (h : truthyS a.station_id = true) :
    get_stations a =
      { endpoint := "/id/stations/" ++ a.station_id.getD ""
        builtParams := [("_limit", toString a.limit),
          ("_offset", toString a.offset), ("_view", a.view)]
        sentParams := none
        warnings := [] } := by
  simp [get_stations, h]

/-- Witness for C9: a single-station call that also supplies filters —
none of them is transmitted. -/
theorem single_station_witness :
    get_stations { station_id := some "ABC123",
                   observed_property := some "waterFlow",
                   status := some "Active",
                   search := some "Thames",
                   rloi_id := some "7", limit := 5 } =
      { endpoint := "/id/stations/ABC123"
        builtParams := [("_limit", "5"), ("_offset", "0"),
          ("_view", "default")]
        sentParams := none
        warnings := [] } := by
  rw [single_station_lookup_sends_no_params _ (by decide)]
  decide

/-- C8 counterexample: this `get_open_stations` call supplies an
`observed_property` outside `OBSERVED_PROPERTIES`; the value is placed in
the outgoing query parameters, yet the method emits no warning at all —
refuting the claim that every read-accessor call warns on unknown enum
values. -/
theorem open_stations_unknown_no_warning :
    List.lookup "observedProperty"
        (get_open_stations { from_date := DateInput.str "2020-01-01",
                             to_date := DateInput.str "2020-12-31",
                             observed_property := some "notAProperty" }).1 =
      some "notAProperty" ∧
    (get_open_stations { from_date := DateInput.str "2020-01-01",
                         to_date := DateInput.str "2020-12-31",
                         observed_property := some "notAProperty" }).2 =
      [] := by
  constructor <;> rfl

/-- C8 (amended): an unknown `observed_property` value is always passed
through to the outgoing query parameters rather than rejected; the
warning, however, is method-specific — `get_stations` (on its list path)
logs "Unknown observed property: …", while `get_open_stations` emits no
warning.  Likewise for `status` in `get_stations`. -/
theorem unknown_enum_passthrough :
    (∀ (a : GetStationsArgs) (op : String),
      truthyS a.station_id = false → a.observed_property = some op →
      op ≠ "" → OBSERVED_PROPERTIES.contains op = false →
      ((get_stations a).sentParams.bind
          (fun ps => List.lookup "observedProperty" ps)) = some op ∧
        ("Unknown observed property: " ++ op) ∈ (get_stations a).warnings) ∧
    (∀ (a : GetStationsArgs) (st : String),
      truthyS a.station_id = false → a.status = some st →
      st ≠ "" → STATION_STATUSES.contains st = false →
      ((get_stations a).sentParams.bind
          (fun ps => List.lookup "status.label" ps)) = some st ∧
        ("Unknown status: " ++ st) ∈ (get_stations a).warnings) ∧
    (∀ (b : OpenStationsArgs) (op : String),
      b.observed_property = some op → op ≠ "" →
      List.lookup "observedProperty" (get_open_stations b).1 = some op ∧
        (get_open_stations b).2 = []) := by
  refine ⟨?_, ?_, ?_⟩
  · intro a op hsid hop hne hunk
    have htr : truthyS (some op) = true := by simp [truthyS, hne]
    constructor
    · simp only [get_stations, hsid, Bool.false_eq_true, if_false,
        Option.bind_some, hop, htr, if_true, Option.some_bind]
      rw [lookup_geo_ne _ _ _ _ _ _ _ _ _ (by decide) (by decide) (by decide),
        lookup_geo_ne _ _ _ _ _ _ _ _ _ (by decide) (by decide) (by decide),
        lookup_insertIf_ne _ _ _ _ _ (by decide),
        lookup_insertIf_ne _ _ _ _ _ (by decide)]
      exact lookup_dictInsert_self _ _ _
    · simp only [get_stations, hsid, Bool.false_eq_true, if_false, hop, htr,
        Option.getD_some, hunk, Bool.not_false, Bool.and_self, if_true]
      simp
  · intro a st hsid hst hne hunk
    have htr : truthyS (some st) = true := by simp [truthyS, hne]
    constructor
    · simp only [get_stations, hsid, Bool.false_eq_true, if_false,
        Option.bind_some, hst, htr, if_true, Option.some_bind]
      rw [lookup_geo_ne _ _ _ _ _ _ _ _ _ (by decide) (by decide) (by decide),
        lookup_geo_ne _ _ _ _ _ _ _ _ _ (by decide) (by decide) (by decide),
        lookup_insertIf_ne _ _ _ _ _ (by decide)]
      exact lookup_dictInsert_self _ _ _
    · simp only [get_stations, hsid, Bool.false_eq_true, if_false, hst, htr,
        Option.getD_some, hunk, Bool.not_false, Bool.and_self, if_true]
      simp
  · intro b op hop hne
    have htr : truthyS (some op) = true := by simp [truthyS, hne]
    constructor
    · simp only [get_open_stations, hop, htr, Option.getD_some, if_true]
      rw [lookup_geo_ne _ _ _ _ _ _ _ _ _ (by decide) (by decide) (by decide),
        lookup_insertIf_ne _ _ _ _ _ (by decide),
        lookup_insertIf_ne _ _ _ _ _ (by decide)]
      exact lookup_dictInsert_self _ _ _
    · rfl

/-- Witness for C8 (amended) at concrete calls with the unknown value
`"notAProperty"` / `"Broken"`. -/
theorem unknown_enum_passthrough_witness :
    ((get_stations { observed_property := some "notAProperty" }).sentParams.bind
        (fun ps => List.lookup "observedProperty" ps)) = some "notAProperty" ∧
    ("Unknown observed property: notAProperty") ∈
      (get_stations { observed_property := some "notAProperty" }).warnings ∧
    ((get_stations { status := some "Broken" }).sentParams.bind
        (fun ps => List.lookup "status.label" ps)) = some "Broken" ∧
    ("Unknown status: Broken") ∈
      (get_stations { status := some "Broken" }).warnings ∧
    List.lookup "observedProperty"
      (get_open_stations { from_date := DateInput.str "2020-01-01",
                           to_date := DateInput.str "2020-12-31",
                           observed_property := some "notAProperty" }).1 =
      some "notAProperty" := by
  obtain ⟨hA, hB, hC⟩ := unknown_enum_passthrough
  obtain ⟨h1, h2⟩ := hA { observed_property := some "notAProperty" }
    "notAProperty" (by decide) rfl (by decide) (by decide)
  obtain ⟨h3, h4⟩ := hB { status := some "Broken" } "Broken"
    (by decide) rfl (by decide) (by decide)
  obtain ⟨h5, -⟩ := hC { from_date := DateInput.str "2020-01-01",
                         to_date := DateInput.str "2020-12-31",
                         observed_property := some "notAProperty" }
    "notAProperty" rfl (by decide)
  exact ⟨h1, by simpa using h2, h3, by simpa using h4, h5⟩

end HydrologyAPI
